import Mathlib

/-
Verification of the Letterboxd-to-Trakt sync engine.

Shallow embedding of:
- `src/utils/trakt.ts` (rate-limited gateway, retry/backoff, rating converter,
  searchMovie / checkMovieHistory / syncMovieToTrakt),
- the page component (reconciliation `checkMovieInTraktHistory`, the per-record
  update of the `checkHistory` pass, and the `handleSync` bulk-sync driver).

Machine numbers are modelled as Nat (times, ids) and Rat (ratings, where the
JavaScript doubles are exact on the dyadic inputs in scope); JavaScript NaN is
modelled as `Option.none`.  Fallible code returns `Except` or pairs carrying an
explicit call trace.
-/

/-! ### Rating converter (`convertLetterboxdRatingToTrakt` in trakt.ts) -/

/-- Consumes a maximal leading run of decimal digits from a character list,
returning the accumulated value, the number of digits consumed, and the rest.
Models the digit-scanning fragment of JavaScript `parseFloat`. -/
def takeDigits (acc : Nat) (n : Nat) : List Char → Nat × Nat × List Char
  | [] => (acc, n, [])
  | c :: cs =>
    if c.isDigit then takeDigits (acc * 10 + (c.toNat - '0'.toNat)) (n + 1) cs
    else (acc, n, c :: cs)

/-- Models JavaScript `parseFloat` on the decimal fragment relevant to rating
strings: optional sign, integer digits, optional fractional digits, parsed as a
prefix (trailing garbage ignored, as in `parseFloat("3abc") = 3`).  `none`
models the NaN result on inputs with no leading numeric prefix.  Exponents and
leading whitespace are outside the modelled fragment (no rating uses them). -/
def jsParseFloat (s : String) : Option ℚ :=
  let cs := s.data
  let sign : ℚ := if cs.head? == some '-' then -1 else 1
  let cs1 := if cs.head? == some '-' || cs.head? == some '+' then cs.tail else cs
  let (ip, ic, cs2) := takeDigits 0 0 cs1
  if cs2.head? == some '.' then
    let (fp, fc, _) := takeDigits 0 0 cs2.tail
    if ic = 0 ∧ fc = 0 then none
    else some (sign * ((ip : ℚ) + (fp : ℚ) / (10 : ℚ) ^ fc))
  else if ic = 0 then none else some (sign * (ip : ℚ))

/-- JavaScript `Math.round`: round half toward positive infinity. -/
def jsRound (q : ℚ) : ℤ := ⌊q + 1 / 2⌋

/-- trakt.ts `convertLetterboxdRatingToTrakt`:
`if (!rating) return 0; return Math.round(parseFloat(rating) * 2)`.
For a string, `!rating` is true exactly on the empty string.  `none` models the
NaN result (NaN propagates through `* 2` and `Math.round`). -/
def convertLetterboxdRatingToTrakt (rating : String) : Option ℤ :=
  if rating = "" then some 0
  else (jsParseFloat rating).map (fun q => jsRound (q * 2))

/-- Reference definition following the spec's words in section 4.1 / section 8:
empty input gives 0; input parsing as a number r gives round(r*2), round half
up, with no upper clamp; non-numeric input gives a not-a-number result. -/
def convertRating_spec (s : String) : Option ℤ :=
  if s = "" then some 0
  else
    match jsParseFloat s with
    | none => none
    | some r => some (jsRound (2 * r))

/-! ### Rate-limited gateway pacing (`callTraktApi` in trakt.ts, timing part) -/

def MIN_REQUEST_INTERVAL : Nat := 3000

def BATCH_INTERVAL : Nat := 10000

def BATCH_SIZE : Nat := 10

/-- Pacing state of the gateway: `lastRequestTime` (module-level variable set
to `Date.now()` after each successful response), `requestCount` (running batch
counter), and the current mocked-clock time. -/
structure GatewayState where
  lastRequestTime : Nat
  requestCount : Nat
  clock : Nat
deriving Repr, DecidableEq

/-- Module initialization in trakt.ts: `lastRequestTime = 0`, `requestCount =
0`; the mocked test clock starts at 0. -/
def initialGatewayState : GatewayState := ⟨0, 0, 0⟩

/-- One successful `callTraktApi` call with network duration `d`, timing part:
sleep until `MIN_REQUEST_INTERVAL` has passed since `lastRequestTime`;
increment `requestCount`; if it reached `BATCH_SIZE`, sleep `BATCH_INTERVAL`
and reset the counter; perform the request; record the completion time.
Returns (new state, begin time of the request, end time). -/
def gwStep (s : GatewayState) (d : Nat) : GatewayState × Nat × Nat :=
  let afterSpacing := max s.clock (s.lastRequestTime + MIN_REQUEST_INTERVAL)
  let count := s.requestCount + 1
  let beginTime := if BATCH_SIZE ≤ count then afterSpacing + BATCH_INTERVAL else afterSpacing
  let count' := if BATCH_SIZE ≤ count then 0 else count
  let endTime := beginTime + d
  (⟨endTime, count', endTime⟩, beginTime, endTime)

/-- Trace of (begin, end) times of a sequence of consecutive gateway calls
with the given network durations, issued with no artificial delay between
them. -/
def gwRun (s : GatewayState) : List Nat → List (Nat × Nat)
  | [] => []
  | d :: ds => (gwStep s d).2 :: gwRun (gwStep s d).1 ds

/-- Final pacing state after a sequence of consecutive gateway calls. -/
def gwRunState (s : GatewayState) : List Nat → GatewayState
  | [] => s
  | d :: ds => gwRunState (gwStep s d).1 ds

/-- `Spaced last trace` says every call in the trace begins at least
`MIN_REQUEST_INTERVAL` after the completion time `last` of its predecessor. -/
def Spaced : Nat → List (Nat × Nat) → Prop
  | _, [] => True
  | last, (b, e) :: rest => last + MIN_REQUEST_INTERVAL ≤ b ∧ b ≤ e ∧ Spaced e rest

/-! ### Exponential backoff on throttling (`callTraktApi` in trakt.ts, retry part) -/

/-- Error kinds a gateway attempt can produce: an axios error carrying HTTP 429
(the throttling signal), or any other failure with its message. -/
inductive ApiErrKind where
  | throttled
  | failure (msg : String)
deriving Repr, DecidableEq

/-- Outcome of one network attempt, as supplied by the remote service. -/
inductive ApiOutcome where
  | ok (v : Nat)
  | err (e : ApiErrKind)
deriving Repr, DecidableEq

/-- Retry structure of `callTraktApi`: attempt the call; on an axios error with
status 429 and `retryCount < 3`, sleep `Math.pow(2, retryCount + 2) * 1000` ms
and retry with `retryCount + 1`; any other error is rethrown unmodified.
`oracle n` is the remote outcome of attempt `n`; the second component collects
the backoff delays slept, in order.  (The per-attempt pacing is `gwStep`.) -/
def retryCall (oracle : Nat → ApiOutcome) (retryCount : Nat) :
    Except ApiErrKind Nat × List Nat :=
  match oracle retryCount with
  | .ok v => (.ok v, [])
  | .err e =>
    match e with
    | .throttled =>
      if h : retryCount < 3 then
        let r := retryCall oracle (retryCount + 1)
        (r.1, 2 ^ (retryCount + 2) * 1000 :: r.2)
      else (.error .throttled, [])
    | .failure m => (.error (.failure m), [])
termination_by 3 - retryCount
decreasing_by omega

/-! ### Trakt API operations (trakt.ts) with explicit call traces -/

structure TraktIds where
  trakt : Nat
deriving Repr, DecidableEq

structure TraktMovie where
  ids : TraktIds
  title : String
  year : Nat
deriving Repr, DecidableEq

/-- One row of the Letterboxd diary export, as passed to `syncMovieToTrakt`. -/
structure LetterboxdEntry where
  Date : String
  Name : String
  Year : String
  Rating : String
  WatchedDate : Option String := none
deriving Repr, DecidableEq

/-- Errors thrown out of `callTraktApi`: the "Trakt client not initialized"
guard error, an axios error (whose `response?.data?.message || message` text is
carried), or a plain JavaScript error. -/
inductive TraktApiError where
  | notInit
  | axiosErr (msg : String)
  | jsErr (msg : String)
deriving Repr, DecidableEq

/-- One outbound request of the engine, with the payload fields the claims
talk about. -/
inductive TraktCall where
  | getSearch (name : String) (year : String)
  | getHistory (traktId : Nat)
  | postHistory (traktId : Nat) (watched_at : String)
  | postRatings (traktId : Nat) (rating : ℤ) (rated_at : Option String)
deriving Repr, DecidableEq

/-- Responses the remote service gives to each endpoint during one
`syncMovieToTrakt` run (the oracle of the embedding). -/
structure TraktEnv where
  searchResp : Except TraktApiError (List TraktMovie)
  historyResp : Except TraktApiError (List Nat)
  historyAddResp : Except TraktApiError Unit
  ratingsAddResp : Except TraktApiError Unit
deriving Repr

/-- Credential guard of `callTraktApi`: with no access token it throws the
"Trakt client not initialized" error before any network activity; otherwise
the request is issued (recorded in the trace) and the service's response is
returned. -/
def callTraktApi (token : Option String) (resp : Except TraktApiError α)
    (call : TraktCall) : Except TraktApiError α × List TraktCall :=
  match token with
  | none => (.error .notInit, [])
  | some _ => (resp, [call])

/-- Error wrapping of `searchMovie`'s catch block: an axios error yields
`Failed to search for movie: <message>`; everything else (including the
"Movie not found" error thrown inside the try, and the not-initialized error)
yields `Failed to search for movie: <name> (<year>)`. -/
def wrapSearch (name year : String) (e : TraktApiError) : String :=
  match e with
  | .axiosErr m => "Failed to search for movie: " ++ m
  | _ => "Failed to search for movie: " ++ name ++ " (" ++ year ++ ")"

/-- trakt.ts `searchMovie`: one GET search call; an empty result list throws,
caught and wrapped by the same catch block as transport errors. -/
def searchMovie (token : Option String) (env : TraktEnv) (name year : String) :
    Except String TraktMovie × List TraktCall :=
  match callTraktApi token env.searchResp (.getSearch name year) with
  | (.error e, cs) => (.error (wrapSearch name year e), cs)
  | (.ok [], cs) =>
    (.error ("Failed to search for movie: " ++ name ++ " (" ++ year ++ ")"), cs)
  | (.ok (m :: _), cs) => (.ok m, cs)

/-- trakt.ts `checkMovieHistory`: one GET history call; returns whether the
history list is non-empty; its catch-all swallows every error (logging only)
and returns `false`. -/
def checkMovieHistory (token : Option String) (env : TraktEnv)
    (movie : TraktMovie) : Bool × List TraktCall :=
  match callTraktApi token env.historyResp (.getHistory movie.ids.trakt) with
  | (.error _, cs) => (false, cs)
  | (.ok l, cs) => (decide (l ≠ []), cs)

/-- Format check for a `YYYY-MM-DD` date-only string: ten characters, digits
with dashes at positions 4 and 7, month in 1..12 and day in 1..31 (the
day-in-month upper bound is approximated by 31). -/
def isYMD (s : String) : Bool :=
  match s.data with
  | [a, b, c, d, h1, e, f, h2, g, i] =>
    a.isDigit && b.isDigit && c.isDigit && d.isDigit && h1 == '-' &&
    e.isDigit && f.isDigit && h2 == '-' && g.isDigit && i.isDigit &&
    decide (1 ≤ (e.toNat - '0'.toNat) * 10 + (f.toNat - '0'.toNat)) &&
    decide ((e.toNat - '0'.toNat) * 10 + (f.toNat - '0'.toNat) ≤ 12) &&
    decide (1 ≤ (g.toNat - '0'.toNat) * 10 + (i.toNat - '0'.toNat)) &&
    decide ((g.toNat - '0'.toNat) * 10 + (i.toNat - '0'.toNat) ≤ 31)
  | _ => false

/-- Models `new Date(s).toISOString()` for the date-only strings the
Letterboxd export produces: a valid `YYYY-MM-DD` is parsed as midnight UTC and
rendered as `YYYY-MM-DDT00:00:00.000Z`; `none` models the `RangeError` that
`toISOString` throws on an invalid date. -/
def dateToISOString (s : String) : Option String :=
  if isYMD s then some (s ++ "T00:00:00.000Z") else none

/-- JavaScript `a || b` on an optional string field and a string, as in
`entry.WatchedDate || entry.Date` (empty strings are falsy); `none` means the
combined value is falsy. -/
def jsOrStr (a : Option String) (b : String) : Option String :=
  match a with
  | some s => if s = "" then (if b = "" then none else some b) else some s
  | none => if b = "" then none else some b

/-- Error wrapping of `syncMovieToTrakt`'s catch block: an axios error yields
`Failed to sync movie: <message>`; any other throw (including the RangeError
of an invalid watched date) yields `Failed to sync movie: <name> (<year>)`. -/
def wrapSync (entry : LetterboxdEntry) (e : TraktApiError) : String :=
  match e with
  | .axiosErr m => "Failed to sync movie: " ++ m
  | _ => "Failed to sync movie: " ++ entry.Name ++ " (" ++ entry.Year ++ ")"

/-- History-add step of `syncMovieToTrakt`: if a watched date is present,
convert it to a full ISO timestamp and POST `/sync/history`.  Returns the
timestamp used (for the later `rated_at`), or the wrapped error. -/
def historyWrite (token : Option String) (env : TraktEnv)
    (entry : LetterboxdEntry) (movie : TraktMovie) :
    Except String (Option String) × List TraktCall :=
  match jsOrStr entry.WatchedDate entry.Date with
  | none => (.ok none, [])
  | some d =>
    match dateToISOString d with
    | none =>
      (.error ("Failed to sync movie: " ++ entry.Name ++ " (" ++ entry.Year ++ ")"), [])
    | some ts =>
      match callTraktApi token env.historyAddResp (.postHistory movie.ids.trakt ts) with
      | (.error e, cs) => (.error (wrapSync entry e), cs)
      | (.ok _, cs) => (.ok (some ts), cs)

/-- Ratings-add step of `syncMovieToTrakt`: if the converted rating is greater
than 0 (false for the NaN of a malformed rating), POST `/sync/ratings` with
`rated_at` set to the watched timestamp when one exists. -/
def ratingsWrite (token : Option String) (env : TraktEnv)
    (entry : LetterboxdEntry) (movie : TraktMovie) (watchedTs : Option String) :
    Except String Unit × List TraktCall :=
  match convertLetterboxdRatingToTrakt entry.Rating with
  | none => (.ok (), [])
  | some r =>
    if 0 < r then
      match callTraktApi token env.ratingsAddResp
          (.postRatings movie.ids.trakt r watchedTs) with
      | (.error e, cs) => (.error (wrapSync entry e), cs)
      | (.ok _, cs) => (.ok (), cs)
    else (.ok (), [])

/-- trakt.ts `syncMovieToTrakt`: search the movie, check its remote history;
a non-empty history returns `alreadyExists = true` with no writes; otherwise
submit the history-add and ratings-add writes as applicable.  Returns the
result (`movie` and the `alreadyExists` flag) and the full ordered call
trace. -/
def syncMovieToTrakt (token : Option String) (env : TraktEnv)
    (entry : LetterboxdEntry) :
    Except String (TraktMovie × Bool) × List TraktCall :=
  match searchMovie token env entry.Name entry.Year with
  | (.error e, cs) => (.error e, cs)
  | (.ok movie, cs1) =>
    match checkMovieHistory token env movie with
    | (true, cs2) => (.ok (movie, true), cs1 ++ cs2)
    | (false, cs2) =>
      match historyWrite token env entry movie with
      | (.error e, cs3) => (.error e, cs1 ++ cs2 ++ cs3)
      | (.ok watchedTs, cs3) =>
        match ratingsWrite token env entry movie watchedTs with
        | (.error e, cs4) => (.error e, cs1 ++ cs2 ++ cs3 ++ cs4)
        | (.ok _, cs4) => (.ok (movie, false), cs1 ++ cs2 ++ cs3 ++ cs4)

/-! ### Reconciliation (page component: `checkMovieInTraktHistory`, `checkHistory`) -/

/-- One imported record, as the page component stores it.  `syncError` holds
the status string (`"Unchecked"`, `"Ready to sync"`, `"Already in Trakt"`, or
an error message); `none` models the `undefined` it is set to on a clean
sync. -/
structure MovieStatus where
  id : String
  name : String
  year : String
  letterboxdRating : Option ℚ
  traktRating : Option ℚ
  watchedDate : Option String
  traktWatchedDate : Option String
  synced : Bool
  syncError : Option String
  selected : Bool
deriving Repr, DecidableEq

/-- Response of the `/api/trakt/history` route as seen by the client: 404 when
the remote search had zero results; otherwise `alreadyExists` (whether the
remote history list was non-empty) and the first history entry's `watched_at`;
`transportFail` covers a non-ok non-404 status, a network failure, or a JSON
parse failure. -/
inductive HistoryApiResp where
  | notFound
  | ok (alreadyExists : Bool) (watched_at : Option String)
  | transportFail (msg : String)
deriving Repr, DecidableEq

/-- Result of `checkMovieInTraktHistory` (the `movie` payload is dropped; only
the fields the check pass consumes are kept). -/
structure CheckResult where
  alreadyExists : Bool
  watchedAt : Option String
deriving Repr, DecidableEq

/-- JavaScript `x || null` on an optional string (empty strings are falsy), as
in `data.movie?.watched_at || null`. -/
def jsOrNullStr (s : Option String) : Option String :=
  match s with
  | some t => if t = "" then none else some t
  | none => none

/-- Truncation `new Date(v).toISOString().split('T')[0]` applied to an optional
date field guarded by JavaScript truthiness (`v ? ... : null`).  `day` is the
calendar-day truncation itself, with `none` modelling the `RangeError` thrown
on an unparseable date, which the `.error` branch propagates as a thrown
exception. -/
def dayOfField (day : String → Option String) (v : Option String) :
    Except String (Option String) :=
  match v with
  | none => .ok none
  | some d =>
    if d = "" then .ok none
    else
      match day d with
      | some x => .ok (some x)
      | none => .error "Invalid time value"

/-- Page component `checkMovieInTraktHistory`: with no stored token it throws
`Not authenticated`; a 404 response is "new movie" (no remote fields); a
non-ok response throws; otherwise the local and remote watched dates are
truncated to calendar day and a differing pair makes the record a rewatch, so
`alreadyExists` is reported as the server's flag with rewatches excluded, and
the raw remote `watched_at` is returned either way. -/
def checkMovieInTraktHistory (day : String → Option String)
    (token : Option String) (movie : MovieStatus) (resp : HistoryApiResp) :
    Except String CheckResult :=
  match token with
  | none => .error "Not authenticated"
  | some _ =>
    match resp with
    | .notFound => .ok ⟨false, none⟩
    | .transportFail msg => .error msg
    | .ok ae w =>
      match dayOfField day movie.watchedDate with
      | .error e => .error e
      | .ok localDay =>
        match dayOfField day w with
        | .error e => .error e
        | .ok remoteDay =>
          let isRewatch : Bool :=
            match localDay, remoteDay with
            | some a, some b => !(a == b)
            | _, _ => false
          .ok ⟨ae && !isRewatch, jsOrNullStr w⟩

/-- JavaScript `split('T')[0]`: the prefix of the string before the first
`T`. -/
def splitT (s : String) : String := ⟨s.data.takeWhile (fun c => !(c == 'T'))⟩

/-- The strict-equality test `movie.watchedDate === result.watchedAt?.split('T')[0]`
(false whenever either side is null/undefined). -/
def watchedDateMatches (localDate : Option String) (watchedAt : Option String) :
    Bool :=
  match localDate, watchedAt with
  | some a, some b => a == splitT b
  | _, _ => false

/-- Per-record update of the `checkHistory` pass: a successful check stores
the classification string and the remote watched date, and marks the record
synced only for an exact already-present date match; a thrown error reverts
the record to `Unchecked` (never `Failed`). -/
def checkHistoryStep (day : String → Option String) (token : Option String)
    (movie : MovieStatus) (resp : HistoryApiResp) : MovieStatus :=
  match checkMovieInTraktHistory day token movie resp with
  | .ok r =>
    { movie with
        syncError := some (if r.alreadyExists then "Already in Trakt" else "Ready to sync"),
        traktWatchedDate := r.watchedAt,
        synced := r.alreadyExists && watchedDateMatches movie.watchedDate r.watchedAt }
  | .error _ => { movie with syncError := some "Unchecked", synced := false }

/-! ### Bulk sync driver (page component `handleSync`) -/

/-- Update applied to the stored record after a successful `syncMovieToTrakt`
(`m` is the iterated snapshot, `rec` the record found in the store):
`synced: true`, `syncError` set to `Already in Trakt` when the movie already
existed remotely and cleared otherwise, `traktWatchedDate` copied from the
snapshot's local watched date. -/
def successUpdate (m : MovieStatus) (ae : Bool) (rec : MovieStatus) : MovieStatus :=
  { rec with
      synced := true,
      syncError := if ae then some "Already in Trakt" else none,
      traktWatchedDate := m.watchedDate }

/-- Update applied after a failed `syncMovieToTrakt`: the error message is
stored, everything else untouched. -/
def failureUpdate (msg : String) (rec : MovieStatus) : MovieStatus :=
  { rec with syncError := some msg }

/-- `findIndex`-by-id store update of `handleSync`: the first record whose
`id` matches is replaced by `f` of it; with no match the list is unchanged. -/
def updateById (g : List MovieStatus) (i : String) (f : MovieStatus → MovieStatus) :
    List MovieStatus :=
  match g with
  | [] => []
  | r :: rs => if r.id = i then f r :: rs else r :: updateById rs i f

/-- The `handleSync` loop over the selected snapshot `sel`, updating the store
`g`.  `cancelSnapshot` is the value of the `isSyncCancelled` state variable
captured by the running closure when the pass started: the loop's
`if (isSyncCancelled) break` reads this captured constant.  `oracle k` is the
outcome of the `k`-th `syncMovieToTrakt` call (`ok alreadyExists` or the
thrown error message).  Returns the updated store and the number of
`syncMovieToTrakt` calls made. -/
def syncPassGo (oracle : Nat → Except String Bool) (cancelSnapshot : Bool)
    (sel : List MovieStatus) (g : List MovieStatus) (k : Nat) :
    List MovieStatus × Nat :=
  match sel with
  | [] => (g, 0)
  | m :: rest =>
    if cancelSnapshot then (g, 0)
    else if m.synced then syncPassGo oracle cancelSnapshot rest g k
    else
      match oracle k with
      | .ok ae =>
        let r := syncPassGo oracle cancelSnapshot rest
          (updateById g m.id (successUpdate m ae)) (k + 1)
        (r.1, r.2 + 1)
      | .error msg =>
        let r := syncPassGo oracle cancelSnapshot rest
          (updateById g m.id (failureUpdate msg)) (k + 1)
        (r.1, r.2 + 1)

/-- One full sync pass (call counter starting at 0). -/
def syncPass (oracle : Nat → Except String Bool) (cancelSnapshot : Bool)
    (sel : List MovieStatus) (g : List MovieStatus) : List MovieStatus × Nat :=
  syncPassGo oracle cancelSnapshot sel g 0

/-- The `handleSync` loop together with the live cancellation cell.
`handleCancelSync` runs `setIsSyncCancelled(true)`: it updates the React state
cell (tracked here as the third result component) for future renders, but
cannot change the `isSyncCancelled` constant already captured by the running
closure, which is what the loop's `if (isSyncCancelled) break` reads.
`cancelAfter = some j` means the user clicks Cancel right after the `j`-th
record of the pass completes.  Returns (store, number of `syncMovieToTrakt`
calls, final cell value). -/
def syncPassCancelGo (oracle : Nat → Except String Bool) (snapshot : Bool)
    (cancelAfter : Option Nat) (sel : List MovieStatus) (g : List MovieStatus)
    (k : Nat) (processed : Nat) (cell : Bool) : List MovieStatus × Nat × Bool :=
  match sel with
  | [] => (g, 0, cell)
  | m :: rest =>
    if snapshot then (g, 0, cell)
    else
      let cell' := cell || (cancelAfter == some (processed + 1))
      if m.synced then
        syncPassCancelGo oracle snapshot cancelAfter rest g k (processed + 1) cell'
      else
        match oracle k with
        | .ok ae =>
          let r := syncPassCancelGo oracle snapshot cancelAfter rest
            (updateById g m.id (successUpdate m ae)) (k + 1) (processed + 1) cell'
          (r.1, r.2.1 + 1, r.2.2)
        | .error msg =>
          let r := syncPassCancelGo oracle snapshot cancelAfter rest
            (updateById g m.id (failureUpdate msg)) (k + 1) (processed + 1) cell'
          (r.1, r.2.1 + 1, r.2.2)

/-! ### Concrete fixtures used by witnesses and counterexamples -/

/-- Recognizer for history-add writes in a call trace. -/
def isHistoryAdd : TraktCall → Bool
  | .postHistory _ _ => true
  | _ => false

/-- Concrete instance of the calendar-day truncation parameter
(`new Date(v).toISOString().split('T')[0]`) for date strings already rendered
in UTC ISO form, as in the fixtures below. -/
def utcDay (s : String) : Option String := some (splitT s)

/-- A record the reconciliation pass has classified `Ready to sync`, watched
locally on 2023-01-01. -/
def readyRecord (n : String) : MovieStatus :=
  { id := n, name := n, year := "2023", letterboxdRating := none,
    traktRating := none, watchedDate := some "2023-01-01",
    traktWatchedDate := none, synced := false,
    syncError := some "Ready to sync", selected := true }

/-- The remote match returned by the search fixture. -/
def mov123 : TraktMovie := { ids := { trakt := 123 }, title := "Movie", year := 2023 }

/-- Remote state with the movie found and no history entry (all writes
accepted). -/
def envNoHistory : TraktEnv :=
  { searchResp := .ok [mov123], historyResp := .ok [],
    historyAddResp := .ok (), ratingsAddResp := .ok () }

/-- Remote state with the movie found and one existing history entry. -/
def envWithHistory : TraktEnv :=
  { searchResp := .ok [mov123], historyResp := .ok [1],
    historyAddResp := .ok (), ratingsAddResp := .ok () }

/-- Remote state where the history lookup fails with a network error. -/
def envHistoryFails : TraktEnv :=
  { searchResp := .ok [mov123], historyResp := .error (.jsErr "Network error"),
    historyAddResp := .ok (), ratingsAddResp := .ok () }

/-- The diary row of the end-to-end scenario. -/
def sampleEntry : LetterboxdEntry :=
  { Date := "2023-01-01", Name := "Movie", Year := "2023", Rating := "4.5" }

/-- Five `Ready to sync` records with distinct ids. -/
def fiveRecords : List MovieStatus :=
  [readyRecord "a", readyRecord "b", readyRecord "c", readyRecord "d", readyRecord "e"]
theorem gwStep_lastRequestTime (s : GatewayState) (d : Nat) :
    (gwStep s d).1.lastRequestTime = (gwStep s d).2.2 := rfl

theorem gwStep_begin_ge (s : GatewayState) (d : Nat) :
    s.lastRequestTime + MIN_REQUEST_INTERVAL ≤ (gwStep s d).2.1 := by
  simp only [gwStep]
  split <;> omega

theorem gwStep_end_ge (s : GatewayState) (d : Nat) :
    (gwStep s d).2.1 ≤ (gwStep s d).2.2 := by
  simp only [gwStep]
  omega

theorem gwRun_spaced (ds : List Nat) : ∀ s : GatewayState,
    Spaced s.lastRequestTime (gwRun s ds) := by
  induction ds with
  | nil => intro s; trivial
  | cons d ds ih =>
    intro s
    refine ⟨gwStep_begin_ge s d, gwStep_end_ge s d, ?_⟩
    have h := ih (gwStep s d).1
    rwa [gwStep_lastRequestTime] at h

theorem gwStep_count_lt (s : GatewayState) (d : Nat) :
    (gwStep s d).1.requestCount < BATCH_SIZE := by
  simp only [gwStep, BATCH_SIZE]
  split <;> omega

/-- Lower bound for the completion time of a run of consecutive calls: each
call adds the 3000 ms spacing, and every time the running counter reaches 10 a
10000 ms cooldown is added and the counter resets. -/
theorem gwRunState_bound (ds : List Nat) : ∀ s : GatewayState,
    s.requestCount < BATCH_SIZE →
    s.lastRequestTime + ds.length * MIN_REQUEST_INTERVAL +
      ((s.requestCount + ds.length) / BATCH_SIZE) * BATCH_INTERVAL ≤
    (gwRunState s ds).lastRequestTime := by
  induction ds with
  | nil =>
    intro s hc
    simp only [gwRunState, List.length_nil, Nat.add_zero, Nat.mul_zero,
      Nat.div_eq_of_lt hc, Nat.zero_mul]
    omega
  | cons d ds ih =>
    intro s hc
    have hstep := ih (gwStep s d).1 (gwStep_count_lt s d)
    simp only [gwRunState, List.length_cons]
    by_cases hb : BATCH_SIZE ≤ s.requestCount + 1
    · have hlast : s.lastRequestTime + MIN_REQUEST_INTERVAL + BATCH_INTERVAL ≤
          (gwStep s d).1.lastRequestTime := by
        simp only [gwStep, if_pos hb]
        omega
      have hcount : (gwStep s d).1.requestCount = 0 := by
        simp only [gwStep, if_pos hb]
      rw [hcount] at hstep
      simp only [MIN_REQUEST_INTERVAL, BATCH_SIZE, BATCH_INTERVAL] at *
      omega
    · have hlast : s.lastRequestTime + MIN_REQUEST_INTERVAL ≤
          (gwStep s d).1.lastRequestTime := by
        simp only [gwStep, if_neg hb]
        omega
      have hcount : (gwStep s d).1.requestCount = s.requestCount + 1 := by
        simp only [gwStep, if_neg hb]
      rw [hcount] at hstep
      simp only [MIN_REQUEST_INTERVAL, BATCH_SIZE, BATCH_INTERVAL] at *
      omega


/-! ### Claim theorems -/

/-- C5 (confirmed): `convertLetterboxdRatingToTrakt` equals the reference
definition `convertRating_spec`: the empty input yields 0; every input parsing
as a number `r` yields `round(r*2)` (with `jsRound` the round-half-up used by
`Math.round`) with no upper clamp ("6" gives 12, "2.75" gives 6); every
non-numeric input yields the not-a-number result `none`, not zero. -/
theorem c5_convertRating_matches_spec :
    (∀ s, convertLetterboxdRatingToTrakt s = convertRating_spec s)
    ∧ convertLetterboxdRatingToTrakt "" = some 0
    ∧ (∀ s r, jsParseFloat s = some r →
        convertLetterboxdRatingToTrakt s = some (jsRound (2 * r)))
    ∧ convertLetterboxdRatingToTrakt "5" = some 10
    ∧ convertLetterboxdRatingToTrakt "4.5" = some 9
    ∧ convertLetterboxdRatingToTrakt "2.75" = some 6
    ∧ convertLetterboxdRatingToTrakt "6" = some 12
    ∧ (∀ s, s ≠ "" → jsParseFloat s = none → convertLetterboxdRatingToTrakt s = none)
    ∧ jsParseFloat "invalid" = none := by
  refine ⟨?_, ?_, ?_, ?_, ?_, ?_, ?_, ?_, ?_⟩
  · intro s
    by_cases hs : s = ""
    · simp [convertLetterboxdRatingToTrakt, convertRating_spec, hs]
    · cases h : jsParseFloat s <;>
        simp [convertLetterboxdRatingToTrakt, convertRating_spec, hs, h, mul_comm]
  · simp [convertLetterboxdRatingToTrakt]
  · intro s r h
    have hs : s ≠ "" := by
      intro hs
      rw [hs] at h
      simp +decide [jsParseFloat, takeDigits] at h
    simp [convertLetterboxdRatingToTrakt, hs, h, mul_comm]
  · simp +decide [convertLetterboxdRatingToTrakt, jsParseFloat, takeDigits, jsRound]
    norm_num
  · simp +decide [convertLetterboxdRatingToTrakt, jsParseFloat, takeDigits, jsRound]
    norm_num
  · simp +decide [convertLetterboxdRatingToTrakt, jsParseFloat, takeDigits, jsRound]
    norm_num
  · simp +decide [convertLetterboxdRatingToTrakt, jsParseFloat, takeDigits, jsRound]
    norm_num
  · intro s hs h
    simp [convertLetterboxdRatingToTrakt, hs, h]
  · simp +decide [jsParseFloat, takeDigits]

/-- C5 witness: the general parsed-number clause of the claim theorem applied
at the concrete input "3". -/
theorem c5_witness :
    convertLetterboxdRatingToTrakt "3" = some (jsRound (2 * 3)) :=
  c5_convertRating_matches_spec.2.2.1 "3" 3
    (by simp +decide [jsParseFloat, takeDigits])

/-- C3 counterexample (closed): with the mocked clock at 0 and eleven
consecutive zero-duration calls, the 10th call begins at 40000 ms (its begin
time already includes the 10000 ms cooldown, imposed after the counter is
incremented to 10 and before the 10th request is issued) and the 11th call
begins at 43000 ms, only the 3000 ms spacing after the 10th call's completion
at 40000 ms — refuting the claim that the cooldown is imposed between the 10th
call and the 11th call. -/
theorem c3_counterexample :
    (gwRun initialGatewayState (List.replicate 11 0)).get? 9 = some (40000, 40000)
    ∧ (gwRun initialGatewayState (List.replicate 11 0)).get? 10 = some (43000, 43000)
    ∧ ¬ (40000 + MIN_REQUEST_INTERVAL + BATCH_INTERVAL ≤ 43000) := by
  decide

/-- C3 (amended): consecutive gateway calls are spaced at least 3000 ms from
the completion of the previous call; the cooldown of 10000 ms is imposed
before the call whose increment brings the counter to 10 (the 10th, 20th, ...
call), after which the counter resets; a run of N consecutive calls from the
initial mocked state completes no earlier than N*3000 + (N/10)*10000 ms, which
implies the claim's lower bound of (N-1)*3000 ms plus one 10000 ms cooldown
per full batch of 10. -/
theorem c3_amended_rate_limiting :
    (∀ ds : List Nat, Spaced initialGatewayState.lastRequestTime (gwRun initialGatewayState ds))
    ∧ (∀ ds : List Nat,
        ds.length * MIN_REQUEST_INTERVAL + (ds.length / BATCH_SIZE) * BATCH_INTERVAL ≤
          (gwRunState initialGatewayState ds).lastRequestTime)
    ∧ (∀ ds : List Nat,
        (ds.length - 1) * MIN_REQUEST_INTERVAL + (ds.length / BATCH_SIZE) * BATCH_INTERVAL ≤
          (gwRunState initialGatewayState ds).lastRequestTime)
    ∧ (∀ (s : GatewayState) (d : Nat), BATCH_SIZE ≤ s.requestCount + 1 →
        (gwStep s d).2.1 =
          max s.clock (s.lastRequestTime + MIN_REQUEST_INTERVAL) + BATCH_INTERVAL
        ∧ (gwStep s d).1.requestCount = 0) := by
  have hbound : ∀ ds : List Nat,
      ds.length * MIN_REQUEST_INTERVAL + (ds.length / BATCH_SIZE) * BATCH_INTERVAL ≤
        (gwRunState initialGatewayState ds).lastRequestTime := by
    intro ds
    have h := gwRunState_bound ds initialGatewayState (by decide)
    simpa [initialGatewayState] using h
  refine ⟨fun ds => gwRun_spaced ds initialGatewayState, hbound, ?_, ?_⟩
  · intro ds
    have h := hbound ds
    have hm : (ds.length - 1) * MIN_REQUEST_INTERVAL ≤ ds.length * MIN_REQUEST_INTERVAL :=
      Nat.mul_le_mul_right _ (Nat.sub_le _ _)
    omega
  · intro s d h
    constructor
    · simp only [gwStep, if_pos h]
    · simp only [gwStep, if_pos h]

/-- C3 witness: the amended theorem's cooldown clause applied at a concrete
state whose counter stands at 9. -/
theorem c3_witness :
    (gwStep ⟨27000, 9, 27000⟩ 0).2.1 =
      max 27000 (27000 + MIN_REQUEST_INTERVAL) + BATCH_INTERVAL
    ∧ (gwStep ⟨27000, 9, 27000⟩ 0).1.requestCount = 0 :=
  c3_amended_rate_limiting.2.2.2 ⟨27000, 9, 27000⟩ 0 (by decide)

/-- C4 (confirmed): a gateway call answered with HTTP 429 is retried after a
delay of 4*2^attempt seconds (4000, 8000, 16000 ms for attempts 0, 1, 2) up to
3 retries; after the 3rd failed retry the throttling error propagates
unmodified; a successful attempt ends the retries and returns the result; and
every non-throttling error propagates immediately with no retry and no
backoff delay. -/
theorem c4_backoff_on_throttling (oracle : Nat → ApiOutcome) :
    (∀ v, oracle 0 = .ok v → retryCall oracle 0 = (.ok v, []))
    ∧ (∀ m, oracle 0 = .err (.failure m) →
        retryCall oracle 0 = (.error (.failure m), []))
    ∧ (∀ v, oracle 0 = .err .throttled → oracle 1 = .err .throttled →
        oracle 2 = .err .throttled → oracle 3 = .ok v →
        retryCall oracle 0 = (.ok v, [4000, 8000, 16000]))
    ∧ (oracle 0 = .err .throttled → oracle 1 = .err .throttled →
        oracle 2 = .err .throttled → oracle 3 = .err .throttled →
        retryCall oracle 0 = (.error .throttled, [4000, 8000, 16000]))
    ∧ (∀ m, oracle 0 = .err .throttled → oracle 1 = .err (.failure m) →
        retryCall oracle 0 = (.error (.failure m), [4000])) := by
  refine ⟨?_, ?_, ?_, ?_, ?_⟩
  · intro v h0
    rw [retryCall, h0]
  · intro m h0
    rw [retryCall, h0]
  · intro v h0 h1 h2 h3
    rw [retryCall, h0]
    norm_num
    rw [retryCall, h1]
    norm_num
    rw [retryCall, h2]
    norm_num
    rw [retryCall, h3]
    simp
  · intro h0 h1 h2 h3
    rw [retryCall, h0]
    norm_num
    rw [retryCall, h1]
    norm_num
    rw [retryCall, h2]
    norm_num
    rw [retryCall, h3]
    simp
  · intro m h0 h1
    rw [retryCall, h0]
    norm_num
    rw [retryCall, h1]
    simp

/-- C4 witness: the backoff theorem applied to the oracle that throttles the
first three attempts and then succeeds. -/
theorem c4_witness :
    retryCall (fun n => if n < 3 then .err .throttled else .ok 7) 0 =
      (.ok 7, [4000, 8000, 16000]) :=
  (c4_backoff_on_throttling (fun n => if n < 3 then .err .throttled else .ok 7)).2.2.1
    7 (by decide) (by decide) (by decide) (by decide)

/-- C2 (confirmed): postcondition of the reconciliation check for every
record.  With the remote history entry's watched date and the local watched
date truncating to the same calendar day, the record is classified
`Already in Trakt` (AlreadyPresent); with differing truncated days it is
classified `Ready to sync` (a rewatch) and the raw remote watched date is
still recorded; with zero search results (the 404 response) it is classified
`Ready to sync` with no remote fields set; and any transport failure or
date-parse failure leaves the record's status `Unchecked` (never a `Failed`
state), with `synced` false. -/
theorem c2_reconciliation_postcondition :
    ∀ (day : String → Option String) (t : String) (m : MovieStatus),
    (∀ dl w dd, m.watchedDate = some dl → dl ≠ "" → w ≠ "" →
      day dl = some dd → day w = some dd →
      (checkHistoryStep day (some t) m (.ok true (some w))).syncError =
        some "Already in Trakt")
    ∧ (∀ dl w d1 d2, m.watchedDate = some dl → dl ≠ "" → w ≠ "" →
      day dl = some d1 → day w = some d2 → d1 ≠ d2 →
      (checkHistoryStep day (some t) m (.ok true (some w))).syncError =
        some "Ready to sync"
      ∧ (checkHistoryStep day (some t) m (.ok true (some w))).traktWatchedDate =
        some w)
    ∧ ((checkHistoryStep day (some t) m .notFound).syncError = some "Ready to sync"
      ∧ (checkHistoryStep day (some t) m .notFound).traktWatchedDate = none
      ∧ (checkHistoryStep day (some t) m .notFound).synced = false)
    ∧ (∀ msg, (checkHistoryStep day (some t) m (.transportFail msg)).syncError =
        some "Unchecked"
      ∧ (checkHistoryStep day (some t) m (.transportFail msg)).synced = false)
    ∧ (∀ dl ae w, m.watchedDate = some dl → dl ≠ "" → day dl = none →
      (checkHistoryStep day (some t) m (.ok ae w)).syncError = some "Unchecked"
      ∧ (checkHistoryStep day (some t) m (.ok ae w)).synced = false) := by
  intro day t m
  refine ⟨?_, ?_, ?_, ?_, ?_⟩
  · intro dl w dd hdl hne hwne hday hwday
    simp [checkHistoryStep, checkMovieInTraktHistory, dayOfField, hdl, hne,
      hwne, hday, hwday]
  · intro dl w d1 d2 hdl hne hwne hday hwday hdiff
    constructor <;>
      simp [checkHistoryStep, checkMovieInTraktHistory, dayOfField, jsOrNullStr,
        hdl, hne, hwne, hday, hwday, hdiff]
  · refine ⟨?_, ?_, ?_⟩ <;>
      simp [checkHistoryStep, checkMovieInTraktHistory, watchedDateMatches]
  · intro msg
    constructor <;> simp [checkHistoryStep, checkMovieInTraktHistory]
  · intro dl ae w hdl hne hday
    constructor <;>
      simp [checkHistoryStep, checkMovieInTraktHistory, dayOfField, hdl, hne, hday]

/-- C2 witness: the postcondition applied at concrete inputs — a record
watched locally on 2023-01-01 against a remote entry of the same day
(`Already in Trakt`) and against a remote entry of 2023-06-01 (rewatch,
`Ready to sync` with the remote date recorded). -/
theorem c2_witness :
    (checkHistoryStep utcDay (some "tok") (readyRecord "Movie-2023")
      (.ok true (some "2023-01-01T10:00:00Z"))).syncError = some "Already in Trakt"
    ∧ (checkHistoryStep utcDay (some "tok") (readyRecord "Movie-2023")
      (.ok true (some "2023-06-01T10:00:00Z"))).syncError = some "Ready to sync"
    ∧ (checkHistoryStep utcDay (some "tok") (readyRecord "Movie-2023")
      (.ok true (some "2023-06-01T10:00:00Z"))).traktWatchedDate =
        some "2023-06-01T10:00:00Z" :=
  ⟨(c2_reconciliation_postcondition utcDay "tok" (readyRecord "Movie-2023")).1
      "2023-01-01" "2023-01-01T10:00:00Z" "2023-01-01"
      (by decide) (by decide) (by decide) (by decide) (by decide),
   ((c2_reconciliation_postcondition utcDay "tok" (readyRecord "Movie-2023")).2.1
      "2023-01-01" "2023-06-01T10:00:00Z" "2023-01-01" "2023-06-01"
      (by decide) (by decide) (by decide) (by decide) (by decide) (by decide)).1,
   ((c2_reconciliation_postcondition utcDay "tok" (readyRecord "Movie-2023")).2.1
      "2023-01-01" "2023-06-01T10:00:00Z" "2023-01-01" "2023-06-01"
      (by decide) (by decide) (by decide) (by decide) (by decide) (by decide)).2⟩

/-- C1 counterexample (closed): a record the Reconciliation Engine classified
`Ready to sync` as a rewatch (local day 2023-01-01, remote entry day
2023-06-01) is nonetheless not written by the sync pass: `syncMovieToTrakt`
re-checks the remote history without comparing dates, finds the existing
entry, returns `alreadyExists = true`, and its call trace contains zero
history-add writes — refuting the claim that a sync pass submits a
history-add for such a record. -/
theorem c1_counterexample :
    (checkHistoryStep utcDay (some "tok") (readyRecord "Movie-2023")
      (.ok true (some "2023-06-01T10:00:00Z"))).syncError = some "Ready to sync"
    ∧ (syncMovieToTrakt (some "tok") envWithHistory sampleEntry).1 =
        .ok (mov123, true)
    ∧ ((syncMovieToTrakt (some "tok") envWithHistory sampleEntry).2.countP
        isHistoryAdd) = 0 := by
  refine ⟨by decide, rfl, rfl⟩

/-- C1 (amended): for every selected rewatch record classified `ReadyToSync`,
the sync pass does not submit a history-add write: `syncMovieToTrakt`
re-checks the remote history without any date comparison, and since a remote
entry exists it returns `alreadyExists = true` after exactly the search call
and the history call, skipping both writes (the driver then records the
record as already present rather than writing the rewatch). -/
theorem c1_amended_rewatch_not_submitted :
    ∀ (t : String) (env : TraktEnv) (entry : LetterboxdEntry)
      (m : TraktMovie) (ms : List TraktMovie) (l : List Nat),
    env.searchResp = .ok (m :: ms) → env.historyResp = .ok l → l ≠ [] →
    (syncMovieToTrakt (some t) env entry).1 = .ok (m, true)
    ∧ (syncMovieToTrakt (some t) env entry).2 =
        [.getSearch entry.Name entry.Year, .getHistory m.ids.trakt] := by
  intro t env entry m ms l hsearch hhist hne
  constructor <;>
    simp [syncMovieToTrakt, searchMovie, checkMovieHistory, callTraktApi,
      hsearch, hhist, hne]

/-- C1 witness: the amended theorem applied at the concrete rewatch
scenario. -/
theorem c1_witness :
    (syncMovieToTrakt (some "tok") envWithHistory sampleEntry).1 =
      .ok (mov123, true)
    ∧ (syncMovieToTrakt (some "tok") envWithHistory sampleEntry).2 =
      [.getSearch "Movie" "2023", .getHistory 123] :=
  c1_amended_rewatch_not_submitted "tok" envWithHistory sampleEntry
    mov123 [] [1] rfl rfl (by decide)

/-- C8 counterexample (closed): with no credential set, `checkMovieHistory`
does not fail with the distinguished "not initialized" error — its catch-all
swallows the thrown guard error and it returns `false` (with no network
call); and `searchMovie` fails with the wrapped "Failed to search for movie"
message, which is not the distinguished error text. -/
theorem c8_counterexample :
    checkMovieHistory none envWithHistory mov123 = (false, [])
    ∧ searchMovie none envWithHistory "Movie" "2023" =
        (.error "Failed to search for movie: Movie (2023)", [])
    ∧ "Failed to search for movie: Movie (2023)" ≠ "Trakt client not initialized" := by
  refine ⟨rfl, rfl, by decide⟩

/-- C8 (amended): with no credential set, no operation attempts a network
call (every call trace is empty), and each operation fails immediately in its
own way: the gateway call itself throws the distinguished "not initialized"
error and the reconciliation check throws the distinguished "Not
authenticated" error, but `searchMovie` and `syncMovieToTrakt` surface the
guard error wrapped as "Failed to search for movie: name (year)", and
`checkMovieHistory` swallows it entirely and returns `false`. -/
theorem c8_amended_no_credential :
    (∀ (α : Type) (resp : Except TraktApiError α) (call : TraktCall),
      callTraktApi none resp call = (.error .notInit, []))
    ∧ (∀ (env : TraktEnv) (name year : String),
      searchMovie none env name year =
        (.error ("Failed to search for movie: " ++ name ++ " (" ++ year ++ ")"), []))
    ∧ (∀ (env : TraktEnv) (m : TraktMovie),
      checkMovieHistory none env m = (false, []))
    ∧ (∀ (env : TraktEnv) (entry : LetterboxdEntry),
      syncMovieToTrakt none env entry =
        (.error ("Failed to search for movie: " ++ entry.Name ++
          " (" ++ entry.Year ++ ")"), []))
    ∧ (∀ (day : String → Option String) (m : MovieStatus) (resp : HistoryApiResp),
      checkMovieInTraktHistory day none m resp = .error "Not authenticated") := by
  refine ⟨fun α resp call => rfl, fun env name year => rfl, fun env m => rfl,
    ?_, fun day m resp => rfl⟩
  intro env entry
  simp [syncMovieToTrakt, searchMovie, callTraktApi, wrapSearch]

/-- C9 (confirmed): syncing the record {title "Movie", year "2023", rating
"4.5", date "2023-01-01"} with no prior remote history performs exactly one
search call, one history call, one history-add whose watched-at timestamp is
the date-only input expanded to midnight UTC, and one ratings-add with rating
9 carrying the same timestamp as rated-at; and the driver then marks the
record Synced (`synced = true`, no error) after that single sync call. -/
theorem c9_end_to_end :
    (∀ (t : String) (env : TraktEnv) (m : TraktMovie) (ms : List TraktMovie),
      env.searchResp = .ok (m :: ms) → env.historyResp = .ok [] →
      env.historyAddResp = .ok () → env.ratingsAddResp = .ok () →
      syncMovieToTrakt (some t) env sampleEntry =
        (.ok (m, false),
         [.getSearch "Movie" "2023", .getHistory m.ids.trakt,
          .postHistory m.ids.trakt "2023-01-01T00:00:00.000Z",
          .postRatings m.ids.trakt 9 (some "2023-01-01T00:00:00.000Z")]))
    ∧ (∀ rec : MovieStatus, rec.synced = false →
      syncPassGo (fun _ => .ok false) false [rec] [rec] 0 =
        ([{ rec with
            synced := true,
            syncError := none,
            traktWatchedDate := rec.watchedDate }], 1)) := by
  constructor
  · intro t env m ms hsearch hhist hhadd hradd
    have hr : convertLetterboxdRatingToTrakt "4.5" = some 9 := by
      simp +decide [convertLetterboxdRatingToTrakt, jsParseFloat, takeDigits, jsRound]
      norm_num
    simp +decide [syncMovieToTrakt, searchMovie, checkMovieHistory, historyWrite,
      ratingsWrite, callTraktApi, sampleEntry, jsOrStr, dateToISOString, hr,
      hsearch, hhist, hhadd, hradd]
  · intro rec hrec
    simp [syncPassGo, hrec, updateById, successUpdate]

/-- C9 witness: the end-to-end theorem applied at the concrete environment
with the movie found and no prior history, and the driver clause applied to a
concrete unsynced record. -/
theorem c9_witness :
    syncMovieToTrakt (some "tok") envNoHistory sampleEntry =
      (.ok (mov123, false),
       [.getSearch "Movie" "2023", .getHistory 123,
        .postHistory 123 "2023-01-01T00:00:00.000Z",
        .postRatings 123 9 (some "2023-01-01T00:00:00.000Z")])
    ∧ syncPassGo (fun _ => .ok false) false [readyRecord "Movie-2023"]
        [readyRecord "Movie-2023"] 0 =
      ([{ readyRecord "Movie-2023" with
          synced := true,
          syncError := none,
          traktWatchedDate := (readyRecord "Movie-2023").watchedDate }], 1) :=
  ⟨c9_end_to_end.1 "tok" envNoHistory mov123 [] rfl rfl rfl rfl,
   c9_end_to_end.2 (readyRecord "Movie-2023") rfl⟩

/-- C10 (confirmed, implicit claim): `checkMovieHistory` returns `false`
instead of propagating every error raised by its single gateway call — the
"not initialized" guard error when no credential is set (no network call is
made) and every transport or auth failure of the history lookup — and
consequently `syncMovieToTrakt` treats a failed remote-history lookup as "not
in history" and proceeds to the write calls. -/
theorem c10_history_errors_swallowed :
    (∀ (env : TraktEnv) (m : TraktMovie),
      checkMovieHistory none env m = (false, []))
    ∧ (∀ (t : String) (env : TraktEnv) (m : TraktMovie) (e : TraktApiError),
      env.historyResp = .error e →
      checkMovieHistory (some t) env m = (false, [.getHistory m.ids.trakt]))
    ∧ (∀ (t : String) (env : TraktEnv) (m : TraktMovie) (ms : List TraktMovie)
        (e : TraktApiError),
      env.searchResp = .ok (m :: ms) → env.historyResp = .error e →
      env.historyAddResp = .ok () →
      syncMovieToTrakt (some t) env
        { Date := "2023-01-01", Name := "Movie", Year := "2023", Rating := "" } =
        (.ok (m, false),
         [.getSearch "Movie" "2023", .getHistory m.ids.trakt,
          .postHistory m.ids.trakt "2023-01-01T00:00:00.000Z"])) := by
  refine ⟨fun env m => rfl, ?_, ?_⟩
  · intro t env m e hhist
    simp [checkMovieHistory, callTraktApi, hhist]
  · intro t env m ms e hsearch hhist hhadd
    simp +decide [syncMovieToTrakt, searchMovie, checkMovieHistory, historyWrite,
      ratingsWrite, callTraktApi, convertLetterboxdRatingToTrakt, jsOrStr,
      dateToISOString, hsearch, hhist, hhadd]

/-- C10 witness: the theorem applied at the concrete environment whose history
lookup fails with a network error. -/
theorem c10_witness :
    checkMovieHistory (some "tok") envHistoryFails mov123 =
      (false, [.getHistory 123])
    ∧ syncMovieToTrakt (some "tok") envHistoryFails
        { Date := "2023-01-01", Name := "Movie", Year := "2023", Rating := "" } =
      (.ok (mov123, false),
       [.getSearch "Movie" "2023", .getHistory 123,
        .postHistory 123 "2023-01-01T00:00:00.000Z"]) :=
  ⟨c10_history_errors_swallowed.2.1 "tok" envHistoryFails mov123
      (.jsErr "Network error") rfl,
   c10_history_errors_swallowed.2.2 "tok" envHistoryFails mov123 []
      (.jsErr "Network error") rfl rfl rfl⟩

theorem successUpdate_id (m : MovieStatus) (ae : Bool) (r : MovieStatus) :
    (successUpdate m ae r).id = r.id := rfl

theorem successUpdate_synced (m : MovieStatus) (ae : Bool) (r : MovieStatus) :
    (successUpdate m ae r).synced = true := rfl

theorem updateById_append (i : String) (f : MovieStatus → MovieStatus) :
    ∀ (done l : List MovieStatus), (∀ a ∈ done, a.id ≠ i) →
    updateById (done ++ l) i f = done ++ updateById l i f := by
  intro done
  induction done with
  | nil => intro l _; rfl
  | cons a rest ih =>
    intro l h
    have ha : a.id ≠ i := h a (List.mem_cons_self a rest)
    simp only [List.cons_append, updateById, if_neg ha, List.append_eq]
    rw [ih l (fun x hx => h x (List.mem_cons_of_mem a hx))]

theorem updateById_head (m : MovieStatus) (rest : List MovieStatus)
    (f : MovieStatus → MovieStatus) :
    updateById (m :: rest) m.id f = f m :: rest := by
  simp [updateById]

theorem syncPassGo_all_skip (oracle : Nat → Except String Bool) (c : Bool) :
    ∀ (sel g : List MovieStatus) (k : Nat),
    (∀ m ∈ sel, m.synced = true) → syncPassGo oracle c sel g k = (g, 0) := by
  intro sel
  induction sel with
  | nil => intro g k _; rfl
  | cons m rest ih =>
    intro g k h
    have hm := h m (List.mem_cons_self m rest)
    cases c with
    | true => rfl
    | false =>
      simp only [syncPassGo, Bool.false_eq_true, if_false, hm, if_true]
      exact ih g k (fun x hx => h x (List.mem_cons_of_mem m hx))

theorem syncPassGo_success_synced (oracle : Nat → Except String Bool)
    (hs : ∀ n, ∃ ae, oracle n = Except.ok ae) :
    ∀ (sel done : List MovieStatus) (k : Nat),
    sel.Pairwise (fun a b => a.id ≠ b.id) →
    (∀ a ∈ done, ∀ b ∈ sel, a.id ≠ b.id) →
    (∀ a ∈ done, a.synced = true) →
    ∀ m ∈ (syncPassGo oracle false sel (done ++ sel) k).1, m.synced = true := by
  intro sel
  induction sel with
  | nil =>
    intro done k _ _ hdone m hm
    simp only [syncPassGo, List.append_nil] at hm
    exact hdone m hm
  | cons hd rest ih =>
    intro done k hpw hdisj hdone
    rw [List.pairwise_cons] at hpw
    obtain ⟨hhd, hpw'⟩ := hpw
    by_cases hsy : hd.synced = true
    · have hstep : syncPassGo oracle false (hd :: rest) (done ++ hd :: rest) k =
          syncPassGo oracle false rest ((done ++ [hd]) ++ rest) k := by
        simp only [syncPassGo, Bool.false_eq_true, if_false, hsy, if_true]
        rw [List.append_cons]
      rw [hstep]
      refine ih (done ++ [hd]) k hpw' ?_ ?_
      · intro a ha b hb
        rcases List.mem_append.mp ha with h | h
        · exact hdisj a h b (List.mem_cons_of_mem _ hb)
        · rw [List.mem_singleton] at h
          subst h
          exact hhd b hb
      · intro a ha
        rcases List.mem_append.mp ha with h | h
        · exact hdone a h
        · rw [List.mem_singleton] at h
          subst h
          exact hsy
    · obtain ⟨ae, hae⟩ := hs k
      have hupd : updateById (done ++ hd :: rest) hd.id (successUpdate hd ae) =
          (done ++ [successUpdate hd ae hd]) ++ rest := by
        rw [updateById_append hd.id _ done (hd :: rest)
          (fun a ha => hdisj a ha hd (List.mem_cons_self hd rest))]
        rw [updateById_head]
        simp
      have hstep : (syncPassGo oracle false (hd :: rest) (done ++ hd :: rest) k).1 =
          (syncPassGo oracle false rest
            ((done ++ [successUpdate hd ae hd]) ++ rest) (k + 1)).1 := by
        simp only [syncPassGo, Bool.false_eq_true, if_false, hsy, hae, hupd]
      rw [hstep]
      refine ih (done ++ [successUpdate hd ae hd]) (k + 1) hpw' ?_ ?_
      · intro a ha b hb
        rcases List.mem_append.mp ha with h | h
        · exact hdisj a h b (List.mem_cons_of_mem _ hb)
        · rw [List.mem_singleton] at h
          subst h
          rw [successUpdate_id]
          exact hhd b hb
      · intro a ha
        rcases List.mem_append.mp ha with h | h
        · exact hdone a h
        · rw [List.mem_singleton] at h
          subst h
          exact successUpdate_synced hd ae hd

/-- C6 (confirmed): a record whose status is Synced is never re-submitted by a
sync pass, even when re-selected — it is skipped unconditionally with no
`syncMovieToTrakt` call; consequently, when a pass over records with pairwise
distinct ids completes with every call succeeding, a second pass over the
resulting record set performs zero write calls. -/
theorem c6_synced_never_resubmitted :
    (∀ (oracle : Nat → Except String Bool) (c : Bool) (sel g : List MovieStatus)
      (k : Nat), (∀ m ∈ sel, m.synced = true) →
      syncPassGo oracle c sel g k = (g, 0))
    ∧ (∀ (o1 o2 : Nat → Except String Bool) (sel : List MovieStatus),
      sel.Pairwise (fun a b => a.id ≠ b.id) →
      (∀ n, ∃ ae, o1 n = Except.ok ae) →
      (syncPass o2 false (syncPass o1 false sel sel).1
        (syncPass o1 false sel sel).1).2 = 0) := by
  refine ⟨fun oracle c => syncPassGo_all_skip oracle c, ?_⟩
  intro o1 o2 sel hpw hs
  have hall : ∀ m ∈ (syncPass o1 false sel sel).1, m.synced = true := by
    have h := syncPassGo_success_synced o1 hs sel [] 0 hpw
      (by intro a ha; cases ha) (by intro a ha; cases ha)
    simpa [syncPass] using h
  rw [syncPass, syncPassGo_all_skip o2 false _ _ 0 hall]

/-- C6 witness: two already-synced-after-first-pass records; the second pass
makes zero calls. -/
theorem c6_witness :
    (syncPass (fun _ => Except.ok false) false
      (syncPass (fun _ => Except.ok false) false
        [readyRecord "a", readyRecord "b"] [readyRecord "a", readyRecord "b"]).1
      (syncPass (fun _ => Except.ok false) false
        [readyRecord "a", readyRecord "b"] [readyRecord "a", readyRecord "b"]).1).2 = 0 :=
  c6_synced_never_resubmitted.2 (fun _ => Except.ok false) (fun _ => Except.ok false)
    [readyRecord "a", readyRecord "b"] (by decide) (fun n => ⟨false, rfl⟩)

/-- C7 (code bug): the sync driver's cancellation flag has no effect.  The
loop's `if (isSyncCancelled) break` reads the `isSyncCancelled` value captured
by the running closure when the pass started (`false`, since `handleSync`
begins with `setIsSyncCancelled(false)`); `handleCancelSync` only updates the
React state cell for future renders.  First clause: for every oracle, record
list and cancellation schedule, the pass's store updates and call count equal
those of the pass with no cancellation at all.  Second clause: cancelling a
5-record pass after the 2nd record completes still issues all 5 write calls
and updates records 3–5 (all end synced), with the cell left `true` —
contradicting the claimed behaviour that records 3–5 keep their pre-pass
status. -/
theorem c7_cancellation_flag_is_stale :
    (∀ (oracle : Nat → Except String Bool) (cancelAfter : Option Nat)
      (sel g : List MovieStatus) (k p : Nat) (cell : Bool),
      (syncPassCancelGo oracle false cancelAfter sel g k p cell).1 =
        (syncPassGo oracle false sel g k).1
      ∧ (syncPassCancelGo oracle false cancelAfter sel g k p cell).2.1 =
        (syncPassGo oracle false sel g k).2)
    ∧ ((syncPassCancelGo (fun _ => Except.ok false) false (some 2) fiveRecords
        fiveRecords 0 0 false).2.1 = 5
      ∧ (syncPassCancelGo (fun _ => Except.ok false) false (some 2) fiveRecords
        fiveRecords 0 0 false).2.2 = true
      ∧ (syncPassCancelGo (fun _ => Except.ok false) false (some 2) fiveRecords
        fiveRecords 0 0 false).1.all (fun m => m.synced) = true) := by
  constructor
  · intro oracle cancelAfter sel
    induction sel with
    | nil => intro g k p cell; exact ⟨rfl, rfl⟩
    | cons m rest ih =>
      intro g k p cell
      by_cases hm : m.synced = true
      · simpa only [syncPassCancelGo, syncPassGo, Bool.false_eq_true, if_false,
          hm, if_true] using ih g k (p + 1) (cell || (cancelAfter == some (p + 1)))
      · cases hok : oracle k with
        | ok ae =>
          have h := ih (updateById g m.id (successUpdate m ae)) (k + 1) (p + 1)
            (cell || (cancelAfter == some (p + 1)))
          simp only [syncPassCancelGo, syncPassGo, Bool.false_eq_true, if_false,
            hm, hok]
          exact ⟨h.1, by rw [h.2]⟩
        | error msg =>
          have h := ih (updateById g m.id (failureUpdate msg)) (k + 1) (p + 1)
            (cell || (cancelAfter == some (p + 1)))
          simp only [syncPassCancelGo, syncPassGo, Bool.false_eq_true, if_false,
            hm, hok]
          exact ⟨h.1, by rw [h.2]⟩
  · exact ⟨by decide, by decide, by decide⟩
